import Mathlib

/-!
Verification development for the GRU cell layer of nntrainer
(`src/nntrainer/layers/grucell.cpp`).

The per-timestep forward gate composition (`GRUCellLayer::forwarding`,
lines 186-314), the backward gradient composition (`calcGradient`,
lines 324-516), the input-derivative production (`calcDerivative`,
lines 316-322) and the configuration check (`finalize`, lines 93-102)
are embedded shallowly:

* scalars are exact rationals (`ℚ`); the trusted tensor primitives
  (`dot`, `add_i_strided`, `multiply_strided`, `sum`, ...) become
  explicit sums and pointwise arithmetic with the same alpha/beta
  conventions as the library (`out = thisOp + beta * out`);
* the packed `[Z | R | G]` column layout of `weight_ih`, `weight_hh`,
  the biases, `zrg` and `d_zrg` (each block exactly `unit` wide) is
  represented by a three-field record, one field per gate block; all
  offsets in the source are multiples of `unit` with widths `unit` or
  `2 * unit`, so every `getSharedDataTensor` view is a union of blocks;
* the configurable activation functions (`acti_func`,
  `recurrent_acti_func`, set in `finalize` lines 171-172) are elementwise
  parameters of the configuration, together with their output-based
  derivative maps used by `run_prime_fn`;
* the per-timestep hidden-state ring (`hidden_state` tensor of shape
  `[max_timestep * batch, 1, 1, unit]`, reshaped to
  `[max_timestep, 1, batch, unit]`) and its gradient mirror are
  functions from the timestep index to a `[batch, unit]` matrix;
* the dropout mask sampled by `Tensor::dropout_mask` is passed in as an
  explicit argument (its sampling is randomness owned by the tensor
  library); the backward broadcast multiply of the mask over the whole
  `d_hidden_states` ring (line 405-408) is modelled in the batch-per-slot
  aligned form, which is the shape-compatible (batch = 1) behaviour of
  `Tensor::multiply_i`.
-/

namespace GRUCell

/-- A `[m, n]` tensor of rationals. -/
abbrev Mat (m n : ℕ) : Type := Fin m → Fin n → ℚ

/-- Matrix product `A ⬝ B`: the tensor primitive `this.dot(B, out)`. -/
def matMul {b m n : ℕ} (A : Mat b m) (B : Mat m n) : Mat b n :=
  fun i j => ∑ k, A i k * B k j

/-- Product with a transposed right factor `A ⬝ Bᵀ`: `this.dot(B, out, false, true)`. -/
def matMulT {b m n : ℕ} (A : Mat b m) (B : Mat n m) : Mat b n :=
  fun i j => ∑ k, A i k * B j k

/-- Product with a transposed left factor `Aᵀ ⬝ B`: `this.dot(B, out, true, false)`. -/
def matTMul {m b n : ℕ} (A : Mat m b) (B : Mat m n) : Mat b n :=
  fun i j => ∑ k, A k i * B k j

/-- A packed `[m, 3 * u]` tensor in the fixed `[Z | R | G]` column layout:
columns `[0, u)` are the update-gate block `z`, columns `[u, 2u)` the
reset-gate block `r`, columns `[2u, 3u)` the memory-cell block `g`
(enum `GRUCellParams`, offsets used throughout `grucell.cpp`). -/
structure Gates (m u : ℕ) where
  z : Mat m u
  r : Mat m u
  g : Mat m u

/-- A packed `[3 * u]` bias vector in the `[Z | R | G]` layout. -/
structure GateVec (u : ℕ) where
  z : Fin u → ℚ
  r : Fin u → ℚ
  g : Fin u → ℚ

/-- The all-zero packed tensor (result of `Tensor::setZero`). -/
def gatesZero {m u : ℕ} : Gates m u :=
  ⟨fun _ _ => 0, fun _ _ => 0, fun _ _ => 0⟩

/-- The all-zero packed bias vector. -/
def gvZero {u : ℕ} : GateVec u :=
  ⟨fun _ => 0, fun _ => 0, fun _ => 0⟩

/-- Configuration of one GRU cell instance: the properties read at the top
of `forwarding` / `calcGradient` (lines 186-197 and 324-335) together with
the activation functions installed by `finalize` (lines 171-172).
`actiPrime` and `recurrentActiPrime` are the output-based derivative maps
applied by `ActiFunc::run_prime_fn` to the stored activated gate values. -/
structure Cfg where
  unit : ℕ
  feature : ℕ
  batch : ℕ
  maxTimestep : ℕ
  timestep : ℕ
  disableBias : Bool
  integrateBias : Bool
  resetAfter : Bool
  dropoutRate : ℚ
  acti : ℚ → ℚ
  actiPrime : ℚ → ℚ
  recurrentActi : ℚ → ℚ
  recurrentActiPrime : ℚ → ℚ

/-- The dropout threshold `epsilon(1e-3)` from the constructor (line 66). -/
def epsilon : ℚ := 1 / 1000

/-- The weight and bias tensors requested in `finalize` (lines 115-149):
`weight_ih : [feature, 3 * unit]`, `weight_hh : [unit, 3 * unit]` and the
three `[3 * unit]` bias vectors.  Only the biases selected by
`disableBias` / `integrateBias` are ever read (the others stand for the
`empty` tensor bound in their place). -/
structure Weights (f u : ℕ) where
  weight_ih : Gates f u
  weight_hh : Gates u u
  bias_h : GateVec u
  bias_ih : GateVec u
  bias_hh : GateVec u

/-- The previous hidden state read by `forwarding` (lines 219-226): the
ring slot `timestep - 1`, or a fresh zero tensor at the first timestep. -/
def prevHiddenState (cfg : Cfg) (H : ℕ → Mat cfg.batch cfg.unit) : Mat cfg.batch cfg.unit :=
  if cfg.timestep = 0 then fun _ _ => 0 else H (cfg.timestep - 1)

/-- Update-gate pre-activation (lines 232-261, `z` block): `x ⬝ W_ih[:, :U]`
plus the recurrent contribution `h_prev ⬝ W_hh[:, :U]` plus the bias term
selected by the bias mode. -/
def updateGatePre (cfg : Cfg) (w : Weights cfg.feature cfg.unit) (H : ℕ → Mat cfg.batch cfg.unit)
    (x : Mat cfg.batch cfg.feature) : Mat cfg.batch cfg.unit :=
  fun i j =>
    matMul x w.weight_ih.z i j + matMul (prevHiddenState cfg H) w.weight_hh.z i j +
      (if cfg.disableBias then 0
       else if cfg.integrateBias then w.bias_h.z j
       else w.bias_ih.z j + w.bias_hh.z j)

/-- Reset-gate pre-activation (lines 232-261, `r` block). -/
def resetGatePre (cfg : Cfg) (w : Weights cfg.feature cfg.unit) (H : ℕ → Mat cfg.batch cfg.unit)
    (x : Mat cfg.batch cfg.feature) : Mat cfg.batch cfg.unit :=
  fun i j =>
    matMul x w.weight_ih.r i j + matMul (prevHiddenState cfg H) w.weight_hh.r i j +
      (if cfg.disableBias then 0
       else if cfg.integrateBias then w.bias_h.r j
       else w.bias_ih.r j + w.bias_hh.r j)

/-- Activated update gate `Z` (line 263, `recurrent_acti_func.run_fn`). -/
def gateZ (cfg : Cfg) (w : Weights cfg.feature cfg.unit) (H : ℕ → Mat cfg.batch cfg.unit)
    (x : Mat cfg.batch cfg.feature) : Mat cfg.batch cfg.unit :=
  fun i j => cfg.recurrentActi (updateGatePre cfg w H x i j)

/-- Activated reset gate `R` (line 263). -/
def gateR (cfg : Cfg) (w : Weights cfg.feature cfg.unit) (H : ℕ → Mat cfg.batch cfg.unit)
    (x : Mat cfg.batch cfg.feature) : Mat cfg.batch cfg.unit :=
  fun i j => cfg.recurrentActi (resetGatePre cfg w H x i j)

/-- Memory-cell (candidate) pre-activation (lines 270-299): the `g` block
of `zrg` after the reset-after-dependent recurrent contribution
(lines 271-288) and the common final bias addition (lines 289-299). -/
def memoryCellPre (cfg : Cfg) (w : Weights cfg.feature cfg.unit) (H : ℕ → Mat cfg.batch cfg.unit)
    (x : Mat cfg.batch cfg.feature) : Mat cfg.batch cfg.unit :=
  fun i j =>
    (if cfg.resetAfter then
      matMul x w.weight_ih.g i j +
        (matMul (prevHiddenState cfg H) w.weight_hh.g i j +
          (if !cfg.disableBias && !cfg.integrateBias then w.bias_hh.g j else 0)) *
          gateR cfg w H x i j
     else
      matMul x w.weight_ih.g i j +
        matMul (fun a b => gateR cfg w H x a b * prevHiddenState cfg H a b) w.weight_hh.g i j +
        (if !cfg.disableBias && !cfg.integrateBias then w.bias_hh.g j else 0)) +
      (if cfg.disableBias then 0
       else if cfg.integrateBias then w.bias_h.g j
       else w.bias_ih.g j)

/-- Activated memory cell `G` (line 301, `acti_func.run_fn`). -/
def gateG (cfg : Cfg) (w : Weights cfg.feature cfg.unit) (H : ℕ → Mat cfg.batch cfg.unit)
    (x : Mat cfg.batch cfg.feature) : Mat cfg.batch cfg.unit :=
  fun i j => cfg.acti (memoryCellPre cfg w H x i j)

/-- New hidden state before dropout (lines 303-305):
`hidden_state = Z ⊙ h_prev`, `temp = Z * (-1) + 1`,
`hidden_state += G ⊙ temp`. -/
def hiddenRaw (cfg : Cfg) (w : Weights cfg.feature cfg.unit) (H : ℕ → Mat cfg.batch cfg.unit)
    (x : Mat cfg.batch cfg.feature) : Mat cfg.batch cfg.unit :=
  fun i j =>
    gateZ cfg w H x i j * prevHiddenState cfg H i j +
      gateG cfg w H x i j * (gateZ cfg w H x i j * (-1) + 1)

/-- Result of one `forwarding` call: the hidden-state ring after the write
to the current slot (line 227 view, filled by lines 303-311), the stored
activated `zrg` buffer, and the declared output (line 313). -/
structure FwdOut (b u : ℕ) where
  hiddenStates : ℕ → Mat b u
  zrg : Gates b u
  output : Mat b u

/-- One call of `GRUCellLayer::forwarding` (lines 186-314).  `mask` is the
value sampled by `mask.dropout_mask(dropout_rate)` at line 309; it is
multiplied into the new hidden state only when the dropout rate exceeds
`epsilon` and the call is a training call (lines 307-311). -/
def forwarding (cfg : Cfg) (w : Weights cfg.feature cfg.unit) (H : ℕ → Mat cfg.batch cfg.unit)
    (x : Mat cfg.batch cfg.feature) (training : Bool) (mask : Mat cfg.batch cfg.unit) :
    FwdOut cfg.batch cfg.unit :=
  let hs : Mat cfg.batch cfg.unit :=
    if epsilon < cfg.dropoutRate ∧ training = true then
      fun i j => hiddenRaw cfg w H x i j * mask i j
    else hiddenRaw cfg w H x
  { hiddenStates := fun n => if n = cfg.timestep then hs else H n
    zrg := ⟨gateZ cfg w H x, gateR cfg w H x, gateG cfg w H x⟩
    output := hs }

/-- The per-call inputs of `calcGradient` (lines 324-370) other than the
parameter-gradient accumulators: the cell input, the hidden-state ring
written by the forward sweep, the stored activated `zrg` buffer, the
incoming derivative supplied by the driver, the dropout mask buffer, and
the hidden-state-gradient ring `dH`. -/
structure GradIn (b f u : ℕ) where
  input : Mat b f
  hiddenStates : ℕ → Mat b u
  zrg : Gates b u
  incoming : Mat b u
  mask : Mat b u
  dH : ℕ → Mat b u

/-- The weight/bias gradient accumulators shared across the reverse sweep
(`getWeightGrad`, lines 340-356). -/
structure GradAcc (f u : ℕ) where
  d_weight_ih : Gates f u
  d_weight_hh : Gates u u
  d_bias_h : GateVec u
  d_bias_ih : GateVec u
  d_bias_hh : GateVec u

/-- The all-zero accumulator bundle. -/
def zeroAcc (f u : ℕ) : GradAcc f u :=
  ⟨gatesZero, gatesZero, gvZero, gvZero, gvZero⟩

/-- Result of one `calcGradient` call: the updated accumulators, the
hidden-state-gradient ring and the freshly written `d_zrg` buffer. -/
structure GradOut (b f u : ℕ) extends GradAcc f u where
  d_hiddenStates : ℕ → Mat b u
  d_zrg : Gates b u

/-- The previous hidden state read by `calcGradient` (lines 391-402):
ring slot `timestep - 1`, or a fresh zero tensor at timestep 0. -/
def gradPrev (cfg : Cfg) (gin : GradIn cfg.batch cfg.feature cfg.unit) : Mat cfg.batch cfg.unit :=
  if cfg.timestep = 0 then fun _ _ => 0 else gin.hiddenStates (cfg.timestep - 1)

/-- The hidden-state-gradient ring after the slot-zeroing at the last
timestep (line 386), the addition of the incoming derivative into the
current slot (line 389), and the broadcast dropout-mask multiply over the
whole ring (lines 405-408, which runs on `d_hidden_states`, not on the
current slot view, whenever the dropout rate exceeds `epsilon`). -/
def dHiddenRingMid (cfg : Cfg) (gin : GradIn cfg.batch cfg.feature cfg.unit) : ℕ → Mat cfg.batch cfg.unit :=
  let a : ℕ → Mat cfg.batch cfg.unit := fun n =>
    if n = cfg.timestep then
      fun i j =>
        (if cfg.timestep + 1 = cfg.maxTimestep then 0 else gin.dH cfg.timestep i j) +
          gin.incoming i j
    else gin.dH n
  if epsilon < cfg.dropoutRate then fun n i j => a n i j * gin.mask i j else a

/-- The working hidden-state gradient `d_hidden_state` for the current
timestep, as read by the gate computations from line 424 on (the slot view
aliases the ring, so it sees the effect of lines 386, 389 and 405-408). -/
def gradDh (cfg : Cfg) (gin : GradIn cfg.batch cfg.feature cfg.unit) : Mat cfg.batch cfg.unit :=
  dHiddenRingMid cfg gin cfg.timestep

/-- Pre-activation update-gate gradient `d7` (lines 426-429 compute
`d5 = d_h ⊙ (h_prev - G)`, line 434 pushes it through
`recurrent_acti_func.run_prime_fn` at the stored `Z`). -/
def dUpdateGateFinal (cfg : Cfg) (gin : GradIn cfg.batch cfg.feature cfg.unit) : Mat cfg.batch cfg.unit :=
  fun i j =>
    (gradDh cfg gin i j * gradPrev cfg gin i j + gradDh cfg gin i j * gin.zrg.g i j * (-1)) *
      cfg.recurrentActiPrime (gin.zrg.z i j)

/-- Pre-activation memory-cell gradient `d8` (lines 430-432 compute
`d6 = (1 - Z) ⊙ d_h`, line 436 pushes it through `acti_func.run_prime_fn`
at the stored `G`). -/
def dMemoryCellFinal (cfg : Cfg) (gin : GradIn cfg.batch cfg.feature cfg.unit) : Mat cfg.batch cfg.unit :=
  fun i j =>
    (gin.zrg.z i j * (-1) + 1) * gradDh cfg gin i j * cfg.actiPrime (gin.zrg.g i j)

/-- The reset-after branch temporary `temp = h_prev ⬝ W_hh[:, 2U:3U]`
plus the separate hidden bias if present (lines 454-459). -/
def raTemp (cfg : Cfg) (w : Weights cfg.feature cfg.unit) (gin : GradIn cfg.batch cfg.feature cfg.unit) : Mat cfg.batch cfg.unit :=
  fun i j =>
    matMul (gradPrev cfg gin) w.weight_hh.g i j +
      (if !cfg.disableBias && !cfg.integrateBias then w.bias_hh.g j else 0)

/-- The reset-after branch temporary `d8 ⊙ R` (line 465). -/
def raTemp3 (cfg : Cfg) (gin : GradIn cfg.batch cfg.feature cfg.unit) : Mat cfg.batch cfg.unit :=
  fun i j => dMemoryCellFinal cfg gin i j * gin.zrg.r i j

/-- The non-reset-after branch temporary `d8 ⬝ W_hh[:, 2U:3U]ᵀ`
(line 482). -/
def nraTemp (cfg : Cfg) (w : Weights cfg.feature cfg.unit) (gin : GradIn cfg.batch cfg.feature cfg.unit) : Mat cfg.batch cfg.unit :=
  matMulT (dMemoryCellFinal cfg gin) w.weight_hh.g

/-- Pre-activation reset-gate gradient `d16`: the branch value `d15`
(line 460 for reset-after, line 483 otherwise) pushed through
`recurrent_acti_func.run_prime_fn` at the stored `R` (line 493). -/
def dResetGateFinal (cfg : Cfg) (w : Weights cfg.feature cfg.unit) (gin : GradIn cfg.batch cfg.feature cfg.unit) : Mat cfg.batch cfg.unit :=
  fun i j =>
    (if cfg.resetAfter then dMemoryCellFinal cfg gin i j * raTemp cfg w gin i j
     else nraTemp cfg w gin i j * gradPrev cfg gin i j) *
      cfg.recurrentActiPrime (gin.zrg.r i j)

/-- The per-call contribution to `d_weight_hh[:, 2U:3U]`: line 473
(`h_prevᵀ ⬝ (d8 ⊙ R)`) for reset-after, line 489
(`(R ⊙ h_prev)ᵀ ⬝ d8`) otherwise. -/
def dWhhGContrib (cfg : Cfg) (gin : GradIn cfg.batch cfg.feature cfg.unit) : Mat cfg.unit cfg.unit :=
  if cfg.resetAfter then matTMul (gradPrev cfg gin) (raTemp3 cfg gin)
  else matTMul (fun i j => gin.zrg.r i j * gradPrev cfg gin i j) (dMemoryCellFinal cfg gin)

/-- The per-call contribution to the memory-cell slice of `d_bias_hh`:
line 469 (column sum of `d8 ⊙ R`) for reset-after, line 479 (column sum
of `d8`) otherwise. -/
def dBiasHhGContrib (cfg : Cfg) (gin : GradIn cfg.batch cfg.feature cfg.unit) : Fin cfg.unit → ℚ :=
  if cfg.resetAfter then fun j => ∑ i, raTemp3 cfg gin i j
  else fun j => ∑ i, dMemoryCellFinal cfg gin i j

/-- The full previous-hidden-state gradient written into ring slot
`timestep - 1` during one call: `d1` (line 424, an overwriting
`multiply_strided` with beta `0`), the candidate-path contribution `d14`
(line 471 for reset-after, line 484 otherwise, both with beta `1`), and
the `[Z | R]` recurrent contribution `d12 + d17` (lines 513-515,
beta `1`). -/
def dPrevContrib (cfg : Cfg) (w : Weights cfg.feature cfg.unit) (gin : GradIn cfg.batch cfg.feature cfg.unit) : Mat cfg.batch cfg.unit :=
  fun i j =>
    gradDh cfg gin i j * gin.zrg.z i j +
      (if cfg.resetAfter then matMulT (raTemp3 cfg gin) w.weight_hh.g i j
       else nraTemp cfg w gin i j * gin.zrg.r i j) +
      (matMulT (dUpdateGateFinal cfg gin) w.weight_hh.z i j +
        matMulT (dResetGateFinal cfg w gin) w.weight_hh.r i j)

/-- One call of `GRUCellLayer::calcGradient` (lines 324-516).

The accumulators are zeroed exactly when `timestep + 1 = max_timestep`
(lines 375-387) and then receive the per-call contributions with beta-1
operations: line 512 for `d_weight_ih`, lines 510-511 and 473/489 for
`d_weight_hh`, lines 496-506 and 469/479 for the biases.  The
hidden-state-gradient ring receives the incoming derivative into the
current slot (line 389), the broadcast mask multiply (lines 405-408), and
for `timestep > 0` the full previous-hidden-state gradient into slot
`timestep - 1` (lines 424, 471/484, 513-515); at timestep 0 that gradient
goes to a fresh temporary (lines 396-400) and is discarded.  `d_zrg` is
overwritten with the three pre-activation gate gradients. -/
def calcGradient (cfg : Cfg) (w : Weights cfg.feature cfg.unit) (gin : GradIn cfg.batch cfg.feature cfg.unit) (acc : GradAcc cfg.feature cfg.unit) :
    GradOut cfg.batch cfg.feature cfg.unit :=
  let wih0 := if cfg.timestep + 1 = cfg.maxTimestep then gatesZero else acc.d_weight_ih
  let whh0 := if cfg.timestep + 1 = cfg.maxTimestep then gatesZero else acc.d_weight_hh
  let bh0 :=
    if cfg.timestep + 1 = cfg.maxTimestep then
      if !cfg.disableBias && cfg.integrateBias then gvZero else acc.d_bias_h
    else acc.d_bias_h
  let bih0 :=
    if cfg.timestep + 1 = cfg.maxTimestep then
      if !cfg.disableBias && !cfg.integrateBias then gvZero else acc.d_bias_ih
    else acc.d_bias_ih
  let bhh0 :=
    if cfg.timestep + 1 = cfg.maxTimestep then
      if !cfg.disableBias && !cfg.integrateBias then gvZero else acc.d_bias_hh
    else acc.d_bias_hh
  { d_weight_ih :=
      ⟨fun i j => wih0.z i j + matTMul gin.input (dUpdateGateFinal cfg gin) i j,
       fun i j => wih0.r i j + matTMul gin.input (dResetGateFinal cfg w gin) i j,
       fun i j => wih0.g i j + matTMul gin.input (dMemoryCellFinal cfg gin) i j⟩
    d_weight_hh :=
      ⟨fun i j => whh0.z i j + matTMul (gradPrev cfg gin) (dUpdateGateFinal cfg gin) i j,
       fun i j => whh0.r i j + matTMul (gradPrev cfg gin) (dResetGateFinal cfg w gin) i j,
       fun i j => whh0.g i j + dWhhGContrib cfg gin i j⟩
    d_bias_h :=
      if !cfg.disableBias && cfg.integrateBias then
        ⟨fun j => bh0.z j + ∑ i, dUpdateGateFinal cfg gin i j,
         fun j => bh0.r j + ∑ i, dResetGateFinal cfg w gin i j,
         fun j => bh0.g j + ∑ i, dMemoryCellFinal cfg gin i j⟩
      else bh0
    d_bias_ih :=
      if !cfg.disableBias && !cfg.integrateBias then
        ⟨fun j => bih0.z j + ∑ i, dUpdateGateFinal cfg gin i j,
         fun j => bih0.r j + ∑ i, dResetGateFinal cfg w gin i j,
         fun j => bih0.g j + ∑ i, dMemoryCellFinal cfg gin i j⟩
      else bih0
    d_bias_hh :=
      if !cfg.disableBias && !cfg.integrateBias then
        ⟨fun j => bhh0.z j + ∑ i, dUpdateGateFinal cfg gin i j,
         fun j => bhh0.r j + ∑ i, dResetGateFinal cfg w gin i j,
         fun j => bhh0.g j + dBiasHhGContrib cfg gin j⟩
      else bhh0
    d_hiddenStates :=
      if cfg.timestep = 0 then dHiddenRingMid cfg gin
      else fun n =>
        if n = cfg.timestep - 1 then dPrevContrib cfg w gin else dHiddenRingMid cfg gin n
    d_zrg :=
      ⟨dUpdateGateFinal cfg gin, dResetGateFinal cfg w gin, dMemoryCellFinal cfg gin⟩ }

/-- One call of `GRUCellLayer::calcDerivative` (lines 316-322): the
outgoing derivative is `d_zrg ⬝ weight_ihᵀ` (`dot` with `trans_b`), the
flat sum over the packed `3 * unit` columns split into the three gate
blocks. -/
def calcDerivative (cfg : Cfg) (w : Weights cfg.feature cfg.unit) (d_zrg : Gates cfg.batch cfg.unit) :
    Mat cfg.batch cfg.feature :=
  fun i k =>
    (∑ j, d_zrg.z i j * w.weight_ih.z k j) + (∑ j, d_zrg.r i j * w.weight_ih.r k j) +
      (∑ j, d_zrg.g i j * w.weight_ih.g k j)

/-- Reading of a packed `[m, 3 * u]` tensor at block `c` of the flat
`[Z | R | G]` column layout: block 0 is `z`, block 1 is `r`, block 2 is
`g` (flat column `c * u + j`). -/
def packGates {m u : ℕ} (G : Gates m u) : Fin m → Fin 3 → Fin u → ℚ :=
  fun i c j => if c = 0 then G.z i j else if c = 1 then G.r i j else G.g i j

/-- The shape of a tensor as used by `finalize` (line 98): batch, channel,
height, width. -/
structure TensorDim4 where
  batchDim : ℕ
  channel : ℕ
  height : ℕ
  width : ℕ

/-- The input validation of `GRUCellLayer::finalize` (lines 93-102): one
input only, and the single-time-dimension check
`input_dim.channel() != 1 && input_dim.height() != 1`. -/
def finalizeCheck (numInputs : ℕ) (input_dim : TensorDim4) : Except String Unit :=
  if numInputs ≠ 1 then Except.error "GRUCell layer takes only one input"
  else if input_dim.channel ≠ 1 ∧ input_dim.height ≠ 1 then
    Except.error "Input must be single time dimension for GRUCell"
  else Except.ok ()

/-- Pointwise sum of two packed tensors. -/
def gatesAdd {m u : ℕ} (A B : Gates m u) : Gates m u :=
  ⟨fun i j => A.z i j + B.z i j, fun i j => A.r i j + B.r i j, fun i j => A.g i j + B.g i j⟩

/-- Pointwise sum of two packed bias vectors. -/
def gvAdd {u : ℕ} (a b : GateVec u) : GateVec u :=
  ⟨fun j => a.z j + b.z j, fun j => a.r j + b.r j, fun j => a.g j + b.g j⟩

/-- The only index of `Fin 1`, used by the concrete evaluations below. -/
def o1 : Fin 1 := ⟨0, Nat.one_pos⟩

/-- A minimal concrete configuration: one unit, one feature, batch 1, a
single timestep, bias disabled, no dropout, with simple exactly
representable activation stand-ins. -/
def baseCfg : Cfg :=
  { unit := 1, feature := 1, batch := 1, maxTimestep := 1, timestep := 0,
    disableBias := true, integrateBias := false, resetAfter := false,
    dropoutRate := 0, acti := fun q => q, actiPrime := fun _ => 1,
    recurrentActi := fun q => q / 2, recurrentActiPrime := fun _ => 1 }

/-- All-ones weights for the minimal configuration. -/
def onesW : Weights 1 1 :=
  { weight_ih := ⟨fun _ _ => 1, fun _ _ => 1, fun _ _ => 1⟩,
    weight_hh := ⟨fun _ _ => 1, fun _ _ => 1, fun _ _ => 1⟩,
    bias_h := gvZero, bias_ih := gvZero, bias_hh := gvZero }

/-- The all-zero hidden-state ring. -/
def hZero : ℕ → Mat 1 1 := fun _ _ _ => 0

/-- The zero input vector. -/
def xZero : Mat 1 1 := fun _ _ => 0

/-- The all-ones input vector. -/
def xOne : Mat 1 1 := fun _ _ => 1

/-- The all-zero mask / derivative. -/
def mZero : Mat 1 1 := fun _ _ => 0

/-- The all-ones mask / derivative. -/
def mOne : Mat 1 1 := fun _ _ => 1

/-- The minimal configuration with an active dropout rate. -/
def cfgC1x : Cfg := { baseCfg with dropoutRate := 1/2 }

/-- A configuration at timestep 1 of a 3-step sweep. -/
def cfgC3x : Cfg := { baseCfg with timestep := 1, maxTimestep := 3 }

/-- A gradient-call input whose hidden-state-gradient ring holds ones in
slot 0 and zeros elsewhere. -/
def ginC3x : GradIn 1 1 1 :=
  { input := xZero, hiddenStates := hZero, zrg := gatesZero, incoming := fun _ _ => 0,
    mask := mZero, dH := fun n => if n = 0 then (fun _ _ => 1) else fun _ _ => 0 }

/-- The same gradient-call input with slot 0 zeroed. -/
def ginC3z : GradIn 1 1 1 := { ginC3x with dH := fun _ _ _ => 0 }

/-- A configuration at timestep 2 of a 4-step sweep with active dropout. -/
def cfgC5x : Cfg := { baseCfg with timestep := 2, maxTimestep := 4, dropoutRate := 1/2 }

/-- A gradient-call input with an all-ones hidden-state-gradient ring, unit
incoming derivative and zero mask. -/
def ginC5x : GradIn 1 1 1 :=
  { input := xZero, hiddenStates := hZero, zrg := gatesZero, incoming := fun _ _ => 1,
    mask := mZero, dH := fun _ _ _ => 1 }

/-- The minimal configuration with a constant-one recurrent activation, so
that the reset gate saturates at 1. -/
def cfgC6x : Cfg := { baseCfg with recurrentActi := fun _ => 1 }

/-- A timestep-0 configuration of a 2-step sweep with active dropout. -/
def cfgC10x : Cfg := { baseCfg with maxTimestep := 2, dropoutRate := 1/2 }

/-- A gradient-call input whose hidden-state-gradient ring holds ones in
slot 1 and zeros elsewhere, with zero mask. -/
def ginC10x : GradIn 1 1 1 :=
  { input := xZero, hiddenStates := hZero, zrg := gatesZero, incoming := fun _ _ => 0,
    mask := mZero, dH := fun n => if n = 1 then (fun _ _ => 1) else fun _ _ => 0 }

/-- C1, amended: on every forwarding call on which the dropout branch is
not taken (dropout rate at most `epsilon`, or a non-training call), the
value written to the ring slot for the current timestep equals
`Z ⊙ h_prev + (1 - Z) ⊙ G` for the stored gate values `Z` and `G`, the
declared output is a copy of that slot, the stored `Z` is the recurrent
activation of `x ⬝ W_ih[:, :U] + h_prev ⬝ W_hh[:, :U]` plus the mode bias
terms, and the stored `G` is the hidden activation of the candidate
pre-activation. -/
theorem grucell_C1 (cfg : Cfg) (w : Weights cfg.feature cfg.unit)
    (H : ℕ → Mat cfg.batch cfg.unit) (x : Mat cfg.batch cfg.feature) (training : Bool)
    (mask : Mat cfg.batch cfg.unit) (hdrop : ¬(epsilon < cfg.dropoutRate ∧ training = true)) :
    (forwarding cfg w H x training mask).hiddenStates cfg.timestep =
      (fun i j => (forwarding cfg w H x training mask).zrg.z i j * prevHiddenState cfg H i j +
        (1 - (forwarding cfg w H x training mask).zrg.z i j) *
          (forwarding cfg w H x training mask).zrg.g i j) ∧
    (forwarding cfg w H x training mask).output =
      (forwarding cfg w H x training mask).hiddenStates cfg.timestep ∧
    (forwarding cfg w H x training mask).zrg.z =
      (fun i j => cfg.recurrentActi (matMul x w.weight_ih.z i j +
        matMul (prevHiddenState cfg H) w.weight_hh.z i j +
        (if cfg.disableBias then 0
         else if cfg.integrateBias then w.bias_h.z j
         else w.bias_ih.z j + w.bias_hh.z j))) ∧
    (forwarding cfg w H x training mask).zrg.g =
      fun i j => cfg.acti (memoryCellPre cfg w H x i j) := by
  refine ⟨?_, ?_, rfl, rfl⟩
  · funext i j
    simp [forwarding, if_neg hdrop, hiddenRaw]
    ring
  · simp [forwarding]

/-- C1 witness: the amended statement evaluated at the minimal dropout-free
configuration. -/
theorem grucell_C1_witness :
    ¬(epsilon < baseCfg.dropoutRate ∧ true = true) ∧
      ((forwarding baseCfg onesW hZero xOne true mOne).hiddenStates baseCfg.timestep =
        (fun i j => (forwarding baseCfg onesW hZero xOne true mOne).zrg.z i j *
            prevHiddenState baseCfg hZero i j +
          (1 - (forwarding baseCfg onesW hZero xOne true mOne).zrg.z i j) *
            (forwarding baseCfg onesW hZero xOne true mOne).zrg.g i j) ∧
      (forwarding baseCfg onesW hZero xOne true mOne).output =
        (forwarding baseCfg onesW hZero xOne true mOne).hiddenStates baseCfg.timestep ∧
      (forwarding baseCfg onesW hZero xOne true mOne).zrg.z =
        (fun i j => baseCfg.recurrentActi (matMul xOne onesW.weight_ih.z i j +
          matMul (prevHiddenState baseCfg hZero) onesW.weight_hh.z i j +
          (if baseCfg.disableBias then 0
           else if baseCfg.integrateBias then onesW.bias_h.z j
           else onesW.bias_ih.z j + onesW.bias_hh.z j))) ∧
      (forwarding baseCfg onesW hZero xOne true mOne).zrg.g =
        fun i j => baseCfg.acti (memoryCellPre baseCfg onesW hZero xOne i j)) :=
  ⟨by norm_num [epsilon, baseCfg],
   grucell_C1 baseCfg onesW hZero xOne true mOne (by norm_num [epsilon, baseCfg])⟩

/-- C1 counterexample: with dropout active (rate 1/2, training, zero mask)
the value stored in the ring slot is the mask-multiplied hidden state, not
`Z ⊙ h_prev + (1 - Z) ⊙ G`. -/
theorem grucell_C1_cex :
    (forwarding cfgC1x onesW hZero xOne true mZero).hiddenStates cfgC1x.timestep o1 o1 ≠
      (forwarding cfgC1x onesW hZero xOne true mZero).zrg.z o1 o1 *
          prevHiddenState cfgC1x hZero o1 o1 +
        (1 - (forwarding cfgC1x onesW hZero xOne true mZero).zrg.z o1 o1) *
          (forwarding cfgC1x onesW hZero xOne true mZero).zrg.g o1 o1 := by
  norm_num [forwarding, hiddenRaw, gateZ, gateG, gateR, memoryCellPre, updateGatePre,
    resetGatePre, prevHiddenState, matMul, epsilon, cfgC1x, baseCfg, onesW, hZero, xOne,
    mZero, Fin.sum_univ_one]

/-- C2: one `calcGradient` call leaves each weight/bias gradient
accumulator equal to its per-call contribution added onto the prior
contents, except on the call with `timestep + 1 = max_timestep`, where the
prior contents are replaced by zero first; the per-call contribution is
exactly what the call produces from zeroed accumulators.  The bias
accumulators selected by the bias mode follow the same protocol, and the
unselected ones are untouched. -/
theorem grucell_C2 (cfg : Cfg) (w : Weights cfg.feature cfg.unit)
    (gin : GradIn cfg.batch cfg.feature cfg.unit) (acc : GradAcc cfg.feature cfg.unit) :
    (calcGradient cfg w gin acc).d_weight_ih =
      gatesAdd (if cfg.timestep + 1 = cfg.maxTimestep then gatesZero else acc.d_weight_ih)
        (calcGradient cfg w gin (zeroAcc cfg.feature cfg.unit)).d_weight_ih ∧
    (calcGradient cfg w gin acc).d_weight_hh =
      gatesAdd (if cfg.timestep + 1 = cfg.maxTimestep then gatesZero else acc.d_weight_hh)
        (calcGradient cfg w gin (zeroAcc cfg.feature cfg.unit)).d_weight_hh ∧
    (calcGradient cfg w gin acc).d_bias_h =
      (if !cfg.disableBias && cfg.integrateBias then
        gvAdd (if cfg.timestep + 1 = cfg.maxTimestep then gvZero else acc.d_bias_h)
          (calcGradient cfg w gin (zeroAcc cfg.feature cfg.unit)).d_bias_h
       else acc.d_bias_h) ∧
    (calcGradient cfg w gin acc).d_bias_ih =
      (if !cfg.disableBias && !cfg.integrateBias then
        gvAdd (if cfg.timestep + 1 = cfg.maxTimestep then gvZero else acc.d_bias_ih)
          (calcGradient cfg w gin (zeroAcc cfg.feature cfg.unit)).d_bias_ih
       else acc.d_bias_ih) ∧
    (calcGradient cfg w gin acc).d_bias_hh =
      (if !cfg.disableBias && !cfg.integrateBias then
        gvAdd (if cfg.timestep + 1 = cfg.maxTimestep then gvZero else acc.d_bias_hh)
          (calcGradient cfg w gin (zeroAcc cfg.feature cfg.unit)).d_bias_hh
       else acc.d_bias_hh) := by
  refine ⟨?_, ?_, ?_, ?_, ?_⟩ <;>
    · by_cases hlast : cfg.timestep + 1 = cfg.maxTimestep <;>
        cases hdis : cfg.disableBias <;> cases hint : cfg.integrateBias <;>
          simp [calcGradient, gatesAdd, gvAdd, zeroAcc, gatesZero, gvZero, hlast, hdis, hint,
            Gates.mk.injEq, GateVec.mk.injEq]

/-- C3, amended: for a backward call at a timestep above 0, the
hidden-state-gradient ring slot for the previous timestep is overwritten
with the full previous-hidden-state gradient contribution of the call
(the first partial term is written with beta 0, the later terms
accumulate within the call); whatever the slot held before the call does
not survive, whatever value it held. -/
theorem grucell_C3 (cfg : Cfg) (w : Weights cfg.feature cfg.unit)
    (gin : GradIn cfg.batch cfg.feature cfg.unit) (acc : GradAcc cfg.feature cfg.unit)
    (D : Mat cfg.batch cfg.unit) (ht : cfg.timestep ≠ 0) :
    (calcGradient cfg w gin acc).d_hiddenStates (cfg.timestep - 1) = dPrevContrib cfg w gin ∧
      dPrevContrib cfg w
          { gin with dH := fun n => if n = cfg.timestep - 1 then D else gin.dH n } =
        dPrevContrib cfg w gin := by
  constructor
  · simp [calcGradient, ht]
  · have hne : cfg.timestep ≠ cfg.timestep - 1 := (Nat.sub_one_lt ht).ne'
    have hdh : gradDh cfg
        { gin with dH := fun n => if n = cfg.timestep - 1 then D else gin.dH n } =
        gradDh cfg gin := by
      funext i j
      by_cases hdr : epsilon < cfg.dropoutRate <;> simp [gradDh, dHiddenRingMid, hne, hdr]
    funext i j
    simp [dPrevContrib, dUpdateGateFinal, dResetGateFinal, dMemoryCellFinal, raTemp, raTemp3,
      nraTemp, gradPrev, matMul, matMulT, matTMul, hdh]

/-- C3 witness: the amended statement evaluated at timestep 1 of a 3-step
sweep. -/
theorem grucell_C3_witness :
    cfgC3x.timestep ≠ 0 ∧
      ((calcGradient cfgC3x onesW ginC3x (zeroAcc 1 1)).d_hiddenStates (cfgC3x.timestep - 1) =
        dPrevContrib cfgC3x onesW ginC3x ∧
      dPrevContrib cfgC3x onesW
          { ginC3x with dH := fun n => if n = cfgC3x.timestep - 1 then mOne else ginC3x.dH n } =
        dPrevContrib cfgC3x onesW ginC3x) :=
  ⟨by decide, grucell_C3 cfgC3x onesW ginC3x (zeroAcc 1 1) mOne (by decide)⟩

/-- C3 counterexample: at timestep 1, with all gate data zero (so the
per-call contribution is zero) and slot 0 holding ones, the call leaves
slot 0 at zero instead of at its prior content plus the contribution. -/
theorem grucell_C3_cex :
    (calcGradient cfgC3x onesW ginC3x (zeroAcc 1 1)).d_hiddenStates 0 o1 o1 ≠
      ginC3x.dH 0 o1 o1 +
        (calcGradient cfgC3x onesW ginC3z (zeroAcc 1 1)).d_hiddenStates 0 o1 o1 := by
  norm_num [calcGradient, dHiddenRingMid, gradDh, gradPrev, dPrevContrib, dUpdateGateFinal,
    dResetGateFinal, dMemoryCellFinal, raTemp, raTemp3, nraTemp, matMul, matMulT, matTMul,
    epsilon, cfgC3x, baseCfg, onesW, ginC3x, ginC3z, xZero, hZero, mZero, gatesZero, zeroAcc,
    Fin.sum_univ_one]

/-- C4: `finalize` accepts a single input whose height (time) dimension is
2 as long as the channel dimension is 1, because line 99 combines the two
shape conditions with a logical and; it rejects the input only when both
dimensions differ from 1.  The code comment (`input_dim = [batch_size, 1,
1, feature_size]`) and the thrown message describe the intended
single-time-dimension shape, so the accepted input exhibits the slip. -/
theorem grucell_C4 :
    finalizeCheck 1 { batchDim := 1, channel := 1, height := 2, width := 4 } = Except.ok () ∧
      finalizeCheck 1 { batchDim := 1, channel := 2, height := 2, width := 4 } =
        Except.error "Input must be single time dimension for GRUCell" := by
  constructor <;> rfl

/-- C5, amended: when the dropout rate exceeds `epsilon`, the backward
call multiplies the mask into the entire hidden-state-gradient ring after
the incoming derivative has been added into the current slot: the working
slot holds `mask ⊙ (prior + incoming)`, and every slot other than the
current one and the one for the previous timestep is left multiplied by
the mask. -/
theorem grucell_C5 (cfg : Cfg) (w : Weights cfg.feature cfg.unit)
    (gin : GradIn cfg.batch cfg.feature cfg.unit) (acc : GradAcc cfg.feature cfg.unit)
    (hdrop : epsilon < cfg.dropoutRate) (n : ℕ) (hn1 : n ≠ cfg.timestep)
    (hn2 : n ≠ cfg.timestep - 1) :
    (calcGradient cfg w gin acc).d_hiddenStates n = (fun i j => gin.dH n i j * gin.mask i j) ∧
      gradDh cfg gin = fun i j =>
        ((if cfg.timestep + 1 = cfg.maxTimestep then 0 else gin.dH cfg.timestep i j) +
          gin.incoming i j) * gin.mask i j := by
  constructor
  · by_cases h0 : cfg.timestep = 0
    · have hn0 : n ≠ 0 := h0 ▸ hn1
      simp [calcGradient, dHiddenRingMid, h0, hn0, hdrop]
    · simp [calcGradient, dHiddenRingMid, h0, hn1, hn2, hdrop]
  · funext i j
    simp [gradDh, dHiddenRingMid, hdrop]

/-- C5 witness: the amended statement evaluated at timestep 2 of a 4-step
sweep with dropout rate 1/2, at ring slot 3. -/
theorem grucell_C5_witness :
    epsilon < cfgC5x.dropoutRate ∧ (3 : ℕ) ≠ cfgC5x.timestep ∧ (3 : ℕ) ≠ cfgC5x.timestep - 1 ∧
      ((calcGradient cfgC5x onesW ginC5x (zeroAcc 1 1)).d_hiddenStates 3 =
        (fun i j => ginC5x.dH 3 i j * ginC5x.mask i j) ∧
      gradDh cfgC5x ginC5x = fun i j =>
        ((if cfgC5x.timestep + 1 = cfgC5x.maxTimestep then 0 else ginC5x.dH cfgC5x.timestep i j) +
          ginC5x.incoming i j) * ginC5x.mask i j) :=
  ⟨by norm_num [epsilon, cfgC5x, baseCfg], by decide, by decide,
   grucell_C5 cfgC5x onesW ginC5x (zeroAcc 1 1) (by norm_num [epsilon, cfgC5x, baseCfg]) 3
     (by decide) (by decide)⟩

/-- C5 counterexample: with dropout active at timestep 2 and a zero mask,
ring slot 3 (a slot of another timestep) is changed by the call, refuting
the claim that the mask multiplication affects only the current
timestep's gradient. -/
theorem grucell_C5_cex :
    (calcGradient cfgC5x onesW ginC5x (zeroAcc 1 1)).d_hiddenStates 3 o1 o1 ≠
      ginC5x.dH 3 o1 o1 := by
  norm_num [calcGradient, dHiddenRingMid, epsilon, cfgC5x, baseCfg, ginC5x, mZero]

/-- C6: whenever the activated reset gate is identically 1, the forwarding
call with `reset_after = true` and the one with `reset_after = false`
produce exactly equal results (ring, stored gates, and output), the two
candidate-path variants collapsing to the same value in exact
arithmetic. -/
theorem grucell_C6 (cfg : Cfg) (w : Weights cfg.feature cfg.unit)
    (H : ℕ → Mat cfg.batch cfg.unit) (x : Mat cfg.batch cfg.feature) (training : Bool)
    (mask : Mat cfg.batch cfg.unit) (hR : gateR cfg w H x = fun _ _ => 1) :
    forwarding { cfg with resetAfter := true } w H x training mask =
      forwarding { cfg with resetAfter := false } w H x training mask := by
  have hMC : memoryCellPre { cfg with resetAfter := true } w H x =
      memoryCellPre { cfg with resetAfter := false } w H x := by
    funext i j
    show
      matMul x w.weight_ih.g i j +
          (matMul (prevHiddenState cfg H) w.weight_hh.g i j +
            (if !cfg.disableBias && !cfg.integrateBias then w.bias_hh.g j else 0)) *
            gateR cfg w H x i j +
          (if cfg.disableBias then 0
           else if cfg.integrateBias then w.bias_h.g j else w.bias_ih.g j) =
        matMul x w.weight_ih.g i j +
          matMul (fun a b => gateR cfg w H x a b * prevHiddenState cfg H a b) w.weight_hh.g i j +
          (if !cfg.disableBias && !cfg.integrateBias then w.bias_hh.g j else 0) +
          (if cfg.disableBias then 0
           else if cfg.integrateBias then w.bias_h.g j else w.bias_ih.g j)
    simp only [hR]
    simp only [one_mul, mul_one]
    ring
  have hG : gateG { cfg with resetAfter := true } w H x =
      gateG { cfg with resetAfter := false } w H x := by
    funext i j
    simp only [gateG, hMC]
  have hRaw : hiddenRaw { cfg with resetAfter := true } w H x =
      hiddenRaw { cfg with resetAfter := false } w H x := by
    funext i j
    simp only [hiddenRaw, gateG, hMC]
    rfl
  simp only [forwarding, hRaw, hG]
  rfl

/-- C6 witness: with a constant-one recurrent activation the reset gate is
identically 1, and the two variants coincide on the minimal
configuration. -/
theorem grucell_C6_witness :
    gateR cfgC6x onesW hZero xOne = (fun _ _ => 1) ∧
      forwarding { cfgC6x with resetAfter := true } onesW hZero xOne true mZero =
        forwarding { cfgC6x with resetAfter := false } onesW hZero xOne true mZero :=
  ⟨rfl, grucell_C6 cfgC6x onesW hZero xOne true mZero rfl⟩

/-- C7: with all-zero input, all-zero previous hidden state, bias
disabled, and a hidden activation fixing 0 (as tanh does), the forwarding
call stores and outputs the all-zero hidden state, for either reset-after
setting and any dropout mask. -/
theorem grucell_C7 (cfg : Cfg) (w : Weights cfg.feature cfg.unit)
    (H : ℕ → Mat cfg.batch cfg.unit) (x : Mat cfg.batch cfg.feature) (training : Bool)
    (mask : Mat cfg.batch cfg.unit) (hx : x = fun _ _ => 0)
    (hprev : prevHiddenState cfg H = fun _ _ => 0) (hbias : cfg.disableBias = true)
    (hacti : cfg.acti 0 = 0) :
    (forwarding cfg w H x training mask).hiddenStates cfg.timestep = (fun _ _ => 0) ∧
      (forwarding cfg w H x training mask).output = (fun _ _ => 0) := by
  have hG : gateG cfg w H x = fun _ _ => 0 := by
    funext i j
    simp [gateG, memoryCellPre, hx, hprev, hbias, matMul, hacti]
  have hRaw : hiddenRaw cfg w H x = fun _ _ => 0 := by
    funext i j
    simp [hiddenRaw, hprev, hG]
  constructor <;> · simp only [forwarding]; split_ifs <;> simp [hRaw]

/-- C7 witness: the statement evaluated at the minimal configuration with
zero input and an identity hidden activation. -/
theorem grucell_C7_witness :
    xZero = (fun _ _ => (0:ℚ)) ∧ prevHiddenState baseCfg hZero = (fun _ _ => 0) ∧
      baseCfg.disableBias = true ∧ baseCfg.acti 0 = 0 ∧
      (forwarding baseCfg onesW hZero xZero true mOne).hiddenStates baseCfg.timestep =
        (fun _ _ => 0) ∧
      (forwarding baseCfg onesW hZero xZero true mOne).output = (fun _ _ => 0) :=
  ⟨rfl, rfl, rfl, rfl,
   (grucell_C7 baseCfg onesW hZero xZero true mOne rfl rfl rfl rfl).1,
   (grucell_C7 baseCfg onesW hZero xZero true mOne rfl rfl rfl rfl).2⟩

/-- C8: the outgoing derivative produced by `calcDerivative` is the packed
pre-activation gate gradient times the transposed input-to-hidden weight,
`dx = dZRG ⬝ W_ihᵀ`, written here as the flat sum over the packed
`[Z | R | G]` column blocks. -/
theorem grucell_C8 (cfg : Cfg) (w : Weights cfg.feature cfg.unit)
    (dz : Gates cfg.batch cfg.unit) :
    calcDerivative cfg w dz =
      fun i k => ∑ c : Fin 3, ∑ j, packGates dz i c j * packGates w.weight_ih k c j := by
  funext i k
  simp [calcDerivative, packGates, Fin.sum_univ_three]

/-- C9: with the dropout rate at or below `epsilon` the forwarding call
never takes the mask-sampling branch, so its entire result is independent
of the sampled mask: two calls with identical inputs, state and weights
coincide for any two masks. -/
theorem grucell_C9 (cfg : Cfg) (w : Weights cfg.feature cfg.unit)
    (H : ℕ → Mat cfg.batch cfg.unit) (x : Mat cfg.batch cfg.feature) (training : Bool)
    (hdrop : cfg.dropoutRate ≤ epsilon) (mask1 mask2 : Mat cfg.batch cfg.unit) :
    forwarding cfg w H x training mask1 = forwarding cfg w H x training mask2 := by
  have h : ¬(epsilon < cfg.dropoutRate ∧ training = true) := fun hc =>
    absurd hc.1 (not_lt.mpr hdrop)
  simp only [forwarding, if_neg h]

/-- C9 witness: the statement evaluated at the minimal configuration with
the zero mask against the all-ones mask. -/
theorem grucell_C9_witness :
    baseCfg.dropoutRate ≤ epsilon ∧
      forwarding baseCfg onesW hZero xOne true mZero =
        forwarding baseCfg onesW hZero xOne true mOne :=
  ⟨by norm_num [baseCfg, epsilon],
   grucell_C9 baseCfg onesW hZero xOne true (by norm_num [baseCfg, epsilon]) mZero mOne⟩

/-- C10, amended: for a backward call at timestep 0 with the dropout rate
at most `epsilon`, the previous hidden state is a fresh zero tensor and no
hidden-state-gradient ring slot other than slot 0 is modified (the
previous-hidden-state gradient goes to a fresh temporary that is
discarded). -/
theorem grucell_C10 (cfg : Cfg) (w : Weights cfg.feature cfg.unit)
    (gin : GradIn cfg.batch cfg.feature cfg.unit) (acc : GradAcc cfg.feature cfg.unit)
    (h0 : cfg.timestep = 0) (hdrop : cfg.dropoutRate ≤ epsilon) (n : ℕ) (hn : n ≠ 0) :
    (calcGradient cfg w gin acc).d_hiddenStates n = gin.dH n ∧
      gradPrev cfg gin = fun _ _ => 0 := by
  have hd : ¬epsilon < cfg.dropoutRate := not_lt.mpr hdrop
  constructor
  · simp [calcGradient, dHiddenRingMid, h0, hd, hn]
  · simp [gradPrev, h0]

/-- C10 witness: the amended statement evaluated at the minimal
dropout-free timestep-0 configuration, at ring slot 1. -/
theorem grucell_C10_witness :
    baseCfg.timestep = 0 ∧ baseCfg.dropoutRate ≤ epsilon ∧ (1 : ℕ) ≠ 0 ∧
      ((calcGradient baseCfg onesW ginC10x (zeroAcc 1 1)).d_hiddenStates 1 = ginC10x.dH 1 ∧
        gradPrev baseCfg ginC10x = fun _ _ => 0) :=
  ⟨rfl, by norm_num [baseCfg, epsilon], by decide,
   grucell_C10 baseCfg onesW ginC10x (zeroAcc 1 1) rfl (by norm_num [baseCfg, epsilon]) 1
     (by decide)⟩

/-- C10 counterexample: at timestep 0 with dropout active and a zero mask,
ring slot 1 is modified by the call (multiplied by the mask), refuting the
claim that no slot other than slot 0 changes. -/
theorem grucell_C10_cex :
    (calcGradient cfgC10x onesW ginC10x (zeroAcc 1 1)).d_hiddenStates 1 o1 o1 ≠
      ginC10x.dH 1 o1 o1 := by
  norm_num [calcGradient, dHiddenRingMid, epsilon, cfgC10x, baseCfg, ginC10x, mZero]

end GRUCell
